import Mathlib

/-!
# Smart Content Summarizer — verification of the spec against the source

Shallow embedding of the backend of the Smart Content Summarizer
(`src/backend/src/app.py` and `src/backend/src/utils/llm_utils.py`).

The embedding models:
* Python string primitives used by the code (`str.strip`, `str.split`,
  `len`, `str.startswith`, `repr`/`str` of values as they appear when a
  dict is formatted into a prompt template);
* the pydantic request model `SummaryRequest` (field constraints,
  defaults, and the two custom `@validator`s), distinguishing an absent
  field from an explicitly supplied `null`;
* the `SmartSummarizer` service (`summarize`): the short-circuit on short
  content, the LCEL chain that builds the prompt and invokes the LLM
  backend, and the error-to-string conversion;
* the FastAPI handler `create_summary` and the full `/summarize`
  endpoint (validation, the `startswith("Error")` check, and the blanket
  `except Exception` wrapper).

The LLM backend itself is external; it is modelled as a function from the
submitted (system, user) message pair to either a completion text or the
message of a raised exception.
-/

namespace Summarizer

/-! ## Python string primitives -/

/-- Python's `str.isspace` set for the characters relevant here
(ASCII whitespace: space, tab, newline, carriage return, vertical tab,
form feed). -/
def pyIsSpace (c : Char) : Bool :=
  c = ' ' || c = '\t' || c = '\n' || c = '\r' || c = '\x0b' || c = '\x0c'

/-- Python `str.strip()`: remove leading and trailing whitespace. -/
def pyStrip (s : String) : String :=
  String.mk (((s.data.dropWhile pyIsSpace).reverse.dropWhile pyIsSpace).reverse)

/-- Accumulator-based splitting on whitespace runs: `acc` holds the
characters of the current token in reverse. -/
def pySplitAux : List Char → List Char → List String
  | [], acc => if acc.isEmpty then [] else [String.mk acc.reverse]
  | c :: cs, acc =>
      if pyIsSpace c then
        if acc.isEmpty then pySplitAux cs []
        else String.mk acc.reverse :: pySplitAux cs []
      else pySplitAux cs (c :: acc)

/-- Python `str.split()` with no arguments: split on runs of whitespace and
drop empty tokens. -/
def pySplit (s : String) : List String :=
  pySplitAux s.data []

/-- Python `str.startswith`: the first string begins with the second. -/
def pyStartsWith (s pre : String) : Bool :=
  pre.data.isPrefixOf s.data

/-- `needle` occurs as a contiguous sublist of the second argument. -/
def listContainsSub (needle : List Char) : List Char → Bool
  | [] => needle.isEmpty
  | c :: cs => needle.isPrefixOf (c :: cs) || listContainsSub needle cs

/-- `sub` occurs as a substring of `s`. -/
def strContainsSub (s sub : String) : Bool :=
  listContainsSub sub.data s.data

/-! ## Request validation (pydantic model `SummaryRequest`, app.py 45–83)

A JSON request body may omit a field, supply `null`, or supply a value.
For the optional fields this three-way distinction is modelled by
`Option (Option _)`: `none` = field absent, `some none` = explicit
`null`, `some (some v)` = value `v` supplied.  `content` is a required
`str` field; the claims only concern string-valued `content`, so it is
modelled as `String`. -/

structure RawRequest where
  content : String
  content_type : Option (Option String)
  summary_length : Option (Option Int)
  style : Option (Option String)
  focus_points : Option (Option String)
  deriving DecidableEq, Repr

/-- The request after pydantic validation.  The `Optional` fields keep
their `Option` type: an explicit `null` for `summary_length` or
`focus_points` survives validation as `none`. -/
structure SummaryRequest where
  content : String
  content_type : Option String
  summary_length : Option Int
  style : Option String
  focus_points : Option String
  deriving DecidableEq, Repr

/-- One field-level validation error, as collected by pydantic. -/
structure FieldError where
  loc : String
  msg : String
  deriving DecidableEq, Repr

/-- Allowed `content_type` values (app.py 73). -/
def allowedContentTypes : List String :=
  ["general", "article", "email", "report", "technical", "research"]

/-- Allowed `style` values (app.py 80). -/
def allowedStyles : List String :=
  ["professional", "casual", "technical", "academic"]

/-- Error message raised by `validate_content_type` (app.py 75). -/
def contentTypeErrMsg : String :=
  "content_type must be one of: " ++ String.intercalate ", " allowedContentTypes

/-- Error message raised by `validate_style` (app.py 82). -/
def styleErrMsg : String :=
  "style must be one of: " ++ String.intercalate ", " allowedStyles

/-- `content: str = Field(..., min_length=50, max_length=50000)`
(app.py 46–51).  Pydantic's length constraints apply to the raw string,
with no stripping. -/
def validateContent (c : String) : Except FieldError String :=
  if c.length < 50 then
    .error ⟨"content", "ensure this value has at least 50 characters"⟩
  else if c.length > 50000 then
    .error ⟨"content", "ensure this value has at most 50000 characters"⟩
  else
    .ok c

/-- `content_type: Optional[str] = Field("general", ...)` together with the
`@validator` `validate_content_type` (app.py 52–55, 71–76).  The validator
runs only when the field is supplied (pydantic does not validate default
values); a supplied `null` reaches the validator as `None`, which is not in
the allowed list. -/
def validateContentTypeField : Option (Option String) → Except FieldError (Option String)
  | none => .ok (some "general")
  | some (some s) =>
      if allowedContentTypes.contains s then .ok (some s)
      else .error ⟨"content_type", contentTypeErrMsg⟩
  | some none => .error ⟨"content_type", contentTypeErrMsg⟩

/-- `summary_length: Optional[int] = Field(100, ge=20, le=500)`
(app.py 56–61).  The range constraints apply to a supplied integer; an
explicit `null` is admitted by `Optional` and skips them. -/
def validateSummaryLength : Option (Option Int) → Except FieldError (Option Int)
  | none => .ok (some 100)
  | some none => .ok none
  | some (some n) =>
      if n < 20 then
        .error ⟨"summary_length", "ensure this value is greater than or equal to 20"⟩
      else if n > 500 then
        .error ⟨"summary_length", "ensure this value is less than or equal to 500"⟩
      else
        .ok (some n)

/-- `style: Optional[str] = Field("professional", ...)` with the
`@validator` `validate_style` (app.py 62–65, 78–83). -/
def validateStyleField : Option (Option String) → Except FieldError (Option String)
  | none => .ok (some "professional")
  | some (some s) =>
      if allowedStyles.contains s then .ok (some s)
      else .error ⟨"style", styleErrMsg⟩
  | some none => .error ⟨"style", styleErrMsg⟩

/-- `focus_points: Optional[str] = Field("main ideas", ...)` (app.py 66–69):
no validator, so a supplied `null` passes through as `None`. -/
def validateFocusPoints : Option (Option String) → Except FieldError (Option String)
  | none => .ok (some "main ideas")
  | some v => .ok v

/-- Turn a field result into its (possibly empty) error list. -/
def errsOf {α : Type} : Except FieldError α → List FieldError
  | .ok _ => []
  | .error e => [e]

/-- Pydantic validation of the whole `SummaryRequest` model: each field is
validated independently and all failures are reported together, in field
declaration order. -/
def validateRequest (r : RawRequest) : Except (List FieldError) SummaryRequest :=
  match validateContent r.content, validateContentTypeField r.content_type,
        validateSummaryLength r.summary_length, validateStyleField r.style,
        validateFocusPoints r.focus_points with
  | .ok c, .ok ct, .ok sl, .ok st, .ok fp => .ok ⟨c, ct, sl, st, fp⟩
  | rc, rct, rsl, rst, rfp =>
      .error (errsOf rc ++ errsOf rct ++ errsOf rsl ++ errsOf rst ++ errsOf rfp)

/-- Does validation accept the raw request? -/
def acceptsRequest (r : RawRequest) : Bool :=
  match validateRequest r with
  | .ok _ => true
  | .error _ => false

/-- The field errors reported for a raw request (empty when accepted). -/
def validationErrors (r : RawRequest) : List FieldError :=
  match validateRequest r with
  | .ok _ => []
  | .error es => es

/-- A raw request supplying only `content`, all other fields absent. -/
def defaultRaw (c : String) : RawRequest :=
  ⟨c, none, none, none, none⟩

/-! ## Prompt construction (llm_utils.py 35–65)

The chain built in `SmartSummarizer.__init__` is
`{"content": RunnablePassthrough(), ...} | prompt | llm | StrOutputParser()`.
The leading dict is a `RunnableParallel`; each `RunnablePassthrough()`
receives the *entire* chain input (the dict passed to `chain.invoke` at
llm_utils 93–99) and returns it unchanged, so every prompt variable is
bound to the whole input mapping, and the f-string formatter of
`ChatPromptTemplate` inserts Python `str()` of that mapping into each
placeholder. -/

/-- Python `repr` of one character inside a quoted string literal, for the
printable-ASCII strings appearing here (`q` is the chosen quote). -/
def pyReprChar (q : Char) (c : Char) : String :=
  if c = '\\' then "\\\\"
  else if c = q then "\\" ++ String.mk [q]
  else if c = '\n' then "\\n"
  else if c = '\r' then "\\r"
  else if c = '\t' then "\\t"
  else String.mk [c]

/-- Python `repr` of a (printable-ASCII) string: single quotes unless the
string contains a single quote and no double quote. -/
def pyReprStr (s : String) : String :=
  let q : Char := if s.data.contains '\x27' && !s.data.contains '"' then '"' else '\x27'
  String.mk [q] ++ String.join (s.data.map (pyReprChar q)) ++ String.mk [q]

/-- Python `repr` of an `Optional[str]` value as it appears inside `str()`
of a dict. -/
def pyReprOptStr : Option String → String
  | some s => pyReprStr s
  | none => "None"

/-- Python `repr`/`str` of an `Optional[int]` value. -/
def pyStrOptInt : Option Int → String
  | some n => toString n
  | none => "None"

/-- Python `str()` of an `Optional[str]` value (used when a value is
formatted directly into a template slot). -/
def pyStrOptStr : Option String → String
  | some s => s
  | none => "None"

/-- The mapping passed to `chain.invoke` (llm_utils 93–99), in insertion
order: content, content_type, summary_length, style, focus_points. -/
structure ChainParams where
  content : String
  content_type : Option String
  summary_length : Option Int
  style : Option String
  focus_points : Option String
  deriving DecidableEq, Repr

/-- Python `str()` of the `chain.invoke` dict, with keys in insertion
order and values shown by `repr`. -/
def chainInput (p : ChainParams) : String :=
  "\x7b'content': " ++ pyReprStr p.content ++
  ", 'content_type': " ++ pyReprOptStr p.content_type ++
  ", 'summary_length': " ++ pyStrOptInt p.summary_length ++
  ", 'style': " ++ pyReprOptStr p.style ++
  ", 'focus_points': " ++ pyReprOptStr p.focus_points ++ "\x7d"

/-- The fixed system message of the prompt template (llm_utils 36–39),
byte-for-byte including the source's in-string indentation. -/
def systemMessage : String :=
  "You are an expert content summarizer. \n             Create concise, accurate summaries that preserve key information.\n             Adapt your style based on the content type.\n             Always maintain factual accuracy and clarity."

/-- Literal segments of the user prompt template (llm_utils 40–50), in
order around its five placeholders (content_type, content,
summary_length, style, focus_points), byte-for-byte including the
source's in-string indentation. -/
def userSeg0 : String := "Content Type: "

def userSeg1 : String := "\n            \n            Content to summarize:\n            "

def userSeg2 : String := "\n            \n            Requirements:\n            - Target length: "

def userSeg3 : String := " words\n            - Writing style: "

def userSeg4 : String := "\n            - Focus areas: "

def userSeg5 : String := "\n            \n            Generate a summary that meets these exact requirements."

/-- The user template with its five slots filled by the given strings. -/
def formatUserTemplate (ct c sl st fp : String) : String :=
  userSeg0 ++ ct ++ userSeg1 ++ c ++ userSeg2 ++ sl ++ userSeg3 ++ st ++ userSeg4 ++ fp ++ userSeg5

/-- The user message the chain actually submits: because each
`RunnablePassthrough()` forwards the whole input mapping, every slot is
filled with `str()` of the entire dict. -/
def userMessage (p : ChainParams) : String :=
  formatUserTemplate (chainInput p) (chainInput p) (chainInput p) (chainInput p) (chainInput p)

/-- Modelled from the spec: the user-level instruction §4.2 describes —
each placeholder receives its own field's value (the content type label,
the full raw content, then the requirements block with target word count,
writing style and focus areas). -/
def specUserMessage (p : ChainParams) : String :=
  formatUserTemplate (pyStrOptStr p.content_type) p.content
    (pyStrOptInt p.summary_length) (pyStrOptStr p.style) (pyStrOptStr p.focus_points)

/-- `ChatOpenAI` configuration fixed at construction (llm_utils 22,
28–32); the float temperature 0.3 is modelled as the rational 3/10. -/
structure LLMConfig where
  model : String
  temperature : ℚ
  deriving DecidableEq

/-- The configuration `SmartSummarizer.__init__` installs with its default
arguments (llm_utils 22). -/
def summarizerLLM : LLMConfig := ⟨"gpt-3.5-turbo", 3/10⟩

/-! ## The summarization service (llm_utils.py 67–102) -/

/-- The model backend, external to the program: from the submitted
(system message, user message) pair to either a completion text or the
message of the exception it raised. -/
abbrev BackendFn := String → String → Except String String

/-- A backend stub ignoring the prompt. -/
def constBackend (r : Except String String) : BackendFn := fun _ _ => r

/-- The short-content error string (llm_utils 90). -/
def shortCircuitMsg : String :=
  "Error: Content too short to summarize effectively (min 50 characters)"

/-- `SmartSummarizer.summarize` (llm_utils 67–102): short-circuit when
`not content or len(content.strip()) < 50`; otherwise invoke the chain
and either strip the completion or convert the raised exception to an
`"Error generating summary: ..."` string.  The second component records
whether the chain (and hence the backend) was invoked. -/
def summarize (content : String) (content_type : Option String)
    (summary_length : Option Int) (style : Option String)
    (focus_points : Option String) (backend : BackendFn) : String × Bool :=
  if content = "" ∨ (pyStrip content).length < 50 then
    (shortCircuitMsg, false)
  else
    match backend systemMessage
        (userMessage ⟨content, content_type, summary_length, style, focus_points⟩) with
    | .ok s => (pyStrip s, true)
    | .error e => ("Error generating summary: " ++ e, true)

/-! ## The `/summarize` handler (app.py 104–136) -/

/-- The response model `SummaryResponse` (app.py 85–89); `parameters_used`
echoes (content_type, summary_length, style, focus_points). -/
structure SummaryResponse where
  summary : String
  word_count : Nat
  char_count : Nat
  parameters_used : Option String × Option Int × Option String × Option String
  deriving DecidableEq, Repr

/-- Outcome of the handler body: a response or a raised `HTTPException`
(status code, detail). -/
inductive HandlerResult where
  | ok : SummaryResponse → HandlerResult
  | httpError : Nat → String → HandlerResult
  deriving DecidableEq, Repr

/-- Modelled from starlette: `HTTPException.__str__` renders as
`"{status_code}: {detail}"`, which is what `str(e)` yields in the
handler's `except` clause. -/
def strHTTPException (status : Nat) (detail : String) : String :=
  toString status ++ ": " ++ detail

/-- `create_summary` (app.py 104–136): call the summarizer; if the result
starts with `"Error"` raise `HTTPException(500, summary)` — which, being
raised inside the `try`, is caught by the blanket `except Exception` and
re-raised as `HTTPException(500, "Internal server error: " + str(e))`;
otherwise build the `SummaryResponse` with `len(summary.split())` and
`len(summary)`.  The second component records whether the backend was
invoked. -/
def create_summary (req : SummaryRequest) (backend : BackendFn) : HandlerResult × Bool :=
  let r := summarize req.content req.content_type req.summary_length req.style
    req.focus_points backend
  if pyStartsWith r.1 "Error" then
    (.httpError 500 ("Internal server error: " ++ strHTTPException 500 r.1), r.2)
  else
    (.ok ⟨r.1, (pySplit r.1).length, r.1.length,
      (req.content_type, req.summary_length, req.style, req.focus_points)⟩, r.2)

/-- Transport-level outcome of `POST /summarize`: 200 with a response
body, 422 with field errors (pydantic validation failure), or 500 with a
detail string. -/
inductive EndpointResult where
  | success : SummaryResponse → EndpointResult
  | unprocessable : List FieldError → EndpointResult
  | serverError : String → EndpointResult
  deriving DecidableEq, Repr

/-- The full `POST /summarize` route: pydantic validation of the body,
then the handler; an `HTTPException` becomes a response with its status
code. -/
def summarizeEndpoint (r : RawRequest) (backend : BackendFn) : EndpointResult × Bool :=
  match validateRequest r with
  | .error es => (.unprocessable es, false)
  | .ok req =>
      match create_summary req backend with
      | (.ok resp, called) => (.success resp, called)
      | (.httpError _ d, called) => (.serverError d, called)

/-- Is the handler outcome a raised `HTTPException`? -/
def isErrorResult : HandlerResult → Bool
  | .ok _ => false
  | .httpError _ _ => true

/-- The `char_count` of a successful handler outcome. -/
def resultCharCount : HandlerResult → Option Nat
  | .ok resp => some resp.char_count
  | .httpError _ _ => none

/-- Is a supplied `Optional[str]` value a member of the allowed list?
(`none` is a supplied `null`, which is never allowed.) -/
def optAllowed (allowed : List String) : Option String → Bool
  | some s => allowed.contains s
  | none => false

/-! ## Helper lemmas -/

lemma pyStartsWith_append_left (s t pre : String) (h : pyStartsWith s pre = true) :
    pyStartsWith (s ++ t) pre = true := by
  unfold pyStartsWith at h ⊢
  rw [List.isPrefixOf_iff_prefix] at h
  rw [String.data_append, List.isPrefixOf_iff_prefix]
  exact h.trans (List.prefix_append _ _)

lemma validateContent_ok (c : String) (h1 : 50 ≤ c.length) (h2 : c.length ≤ 50000) :
    validateContent c = .ok c := by
  unfold validateContent
  rw [if_neg (by omega), if_neg (by omega)]

/-- With only `content` supplied, validation reduces to the `content`
length check; the other four fields take their defaults. -/
lemma validateRequest_defaultRaw (c : String) :
    validateRequest (defaultRaw c)
      = match validateContent c with
        | .ok _ =>
            .ok ⟨c, some "general", some 100, some "professional", some "main ideas"⟩
        | .error e => .error [e] := by
  unfold validateRequest defaultRaw
  cases h : validateContent c with
  | ok v =>
      have hv : v = c := by
        unfold validateContent at h
        split at h
        · exact absurd h (by simp)
        · split at h
          · exact absurd h (by simp)
          · simpa using h.symm
      subst hv
      rfl
  | error e => rfl

/-- Every raised `HTTPException` of the handler has status 500 and a
detail wrapped by the blanket `except` clause. -/
lemma create_summary_server_error (req : SummaryRequest) (b : BackendFn) (s : Nat)
    (d : String) (h : (create_summary req b).1 = .httpError s d) :
    s = 500 ∧ pyStartsWith d "Internal server error: " = true := by
  unfold create_summary at h
  dsimp only at h
  split at h
  · simp only [HandlerResult.httpError.injEq] at h
    obtain ⟨hs, hd⟩ := h
    refine ⟨hs.symm, ?_⟩
    rw [← hd]
    exact pyStartsWith_append_left _ _ _ (by decide)
  · simp at h

end Summarizer

namespace Summarizer

/-! ## Claims -/

/-- C1 (amended): content-length validation is decided on the raw,
untrimmed content and gates the Service: with all other fields at their
defaults, the Validator accepts iff the raw length of `content` is in
[50, 50000], and whenever it rejects, the response is the 422 validation
failure and the model backend is never invoked. -/
theorem content_length_gates_on_raw_length (c : String) (b : BackendFn) :
    (acceptsRequest (defaultRaw c) = true ↔ 50 ≤ c.length ∧ c.length ≤ 50000)
    ∧ (acceptsRequest (defaultRaw c) = false →
        (summarizeEndpoint (defaultRaw c) b).1
            = .unprocessable (validationErrors (defaultRaw c))
        ∧ (summarizeEndpoint (defaultRaw c) b).2 = false) := by
  have hch := validateRequest_defaultRaw c
  constructor
  · unfold acceptsRequest
    rw [hch]
    unfold validateContent
    by_cases h1 : c.length < 50
    · rw [if_pos h1]
      simp only [Bool.false_eq_true, false_iff]
      omega
    · rw [if_neg h1]
      by_cases h2 : c.length > 50000
      · rw [if_pos h2]
        simp only [Bool.false_eq_true, false_iff]
        omega
      · rw [if_neg h2]
        simp only [true_iff]
        omega
  · intro hrej
    unfold acceptsRequest at hrej
    unfold summarizeEndpoint validationErrors
    cases h : validateRequest (defaultRaw c) with
    | ok req => rw [h] at hrej; simp at hrej
    | error es => simp

/-- Witness for C1's amended theorem at `content = "short"`. -/
theorem content_length_gates_on_raw_length_witness :
    acceptsRequest (defaultRaw "short") = false
    ∧ (summarizeEndpoint (defaultRaw "short") (constBackend (Except.ok "x"))).2
        = false := by
  have h := content_length_gates_on_raw_length "short" (constBackend (Except.ok "x"))
  have hacc : acceptsRequest (defaultRaw "short") = false := by
    cases hb : acceptsRequest (defaultRaw "short") with
    | false => rfl
    | true => exact absurd (h.1.mp hb).1 (by decide)
  exact ⟨hacc, (h.2 hacc).2⟩

/-- C1 counterexample: a content of 50 spaces has trimmed length 0 (< 50),
yet the Validator accepts it — its length constraints are applied to the
raw string — and the Summarization Service *is* invoked (it then
short-circuits internally, producing a 500, not a validation error). -/
theorem content_length_trimmed_counterexample :
    (pyStrip (String.mk (List.replicate 50 ' '))).length < 50
    ∧ acceptsRequest (defaultRaw (String.mk (List.replicate 50 ' '))) = true
    ∧ (summarizeEndpoint (defaultRaw (String.mk (List.replicate 50 ' ')))
          (constBackend (Except.ok "a completion"))).1
        = .serverError
            "Internal server error: 500: Error: Content too short to summarize effectively (min 50 characters)" := by
  decide

/-- C3: called directly, the Service short-circuits whenever the trimmed
content is under 50 characters: it returns the classified short-content
error string and never invokes the model backend. -/
theorem service_short_circuits_short_content (content : String) (ct : Option String)
    (sl : Option Int) (st : Option String) (fp : Option String) (b : BackendFn)
    (h : (pyStrip content).length < 50) :
    summarize content ct sl st fp b = (shortCircuitMsg, false) := by
  unfold summarize
  rw [if_pos (Or.inr h)]

/-- Witness for C3 at a 9-character content. -/
theorem service_short_circuits_short_content_witness :
    (pyStrip "too short").length < 50
    ∧ summarize "too short" (some "general") (some 100) (some "professional")
        (some "main ideas") (constBackend (Except.ok "irrelevant"))
      = (shortCircuitMsg, false) :=
  ⟨by decide,
   service_short_circuits_short_content _ _ _ _ _ _ (by decide)⟩

/-- C2: whenever the backend call raises (returns a failure) and the
content passes the short-content check, `create_summary` produces a
raised-`HTTPException` outcome with server-error status 500 — never a
success-shaped result and never the raw exception — and its detail string
contains the backend's own error text as a suffix. -/
theorem backend_failure_classified (req : SummaryRequest) (b : BackendFn) (e : String)
    (hc : ¬(req.content = "" ∨ (pyStrip req.content).length < 50))
    (hb : b systemMessage
        (userMessage ⟨req.content, req.content_type, req.summary_length, req.style,
          req.focus_points⟩) = .error e) :
    create_summary req b
      = (.httpError 500
          ("Internal server error: "
            ++ strHTTPException 500 ("Error generating summary: " ++ e)), true)
    ∧ ∃ p, ("Internal server error: "
            ++ strHTTPException 500 ("Error generating summary: " ++ e)) = p ++ e := by
  constructor
  · unfold create_summary summarize
    rw [if_neg hc, hb]
    dsimp only
    rw [if_pos (pyStartsWith_append_left "Error generating summary: " e "Error" (by decide))]
  · refine ⟨"Internal server error: " ++ strHTTPException 500 "Error generating summary: ", ?_⟩
    unfold strHTTPException
    simp only [String.append_assoc]

/-- Witness for C2 with a simulated network failure. -/
theorem backend_failure_classified_witness :
    create_summary ⟨String.mk (List.replicate 100 'A'), some "general", some 100,
        some "professional", some "main ideas"⟩
      (constBackend (Except.error "simulated network failure"))
      = (.httpError 500
          "Internal server error: 500: Error generating summary: simulated network failure",
        true)
    ∧ ∃ p, ("Internal server error: 500: Error generating summary: simulated network failure"
          : String) = p ++ "simulated network failure" := by
  have h := backend_failure_classified
    ⟨String.mk (List.replicate 100 'A'), some "general", some 100,
      some "professional", some "main ideas"⟩
    (constBackend (Except.error "simulated network failure"))
    "simulated network failure" (by decide) rfl
  refine ⟨h.1.trans (by decide), ?_⟩
  obtain ⟨p, hp⟩ := h.2
  exact ⟨p, by rw [show ("Internal server error: 500: Error generating summary: simulated network failure" : String) = "Internal server error: " ++ strHTTPException 500 ("Error generating summary: " ++ "simulated network failure") from by decide, hp]⟩

/-- C4: on a successful backend completion (that does not trip the
`"Error"`-prefix check), the handler's result is the deterministic pure
normalization of the completion text: the summary is the trimmed
completion, `word_count` is the number of whitespace-delimited non-empty
tokens of that trimmed text, and `char_count` is its length. -/
theorem normalization_pure (req : SummaryRequest) (b : BackendFn) (t : String)
    (hc : ¬(req.content = "" ∨ (pyStrip req.content).length < 50))
    (hb : b systemMessage
        (userMessage ⟨req.content, req.content_type, req.summary_length, req.style,
          req.focus_points⟩) = .ok t)
    (he : pyStartsWith (pyStrip t) "Error" = false) :
    create_summary req b
      = (.ok ⟨pyStrip t, (pySplit (pyStrip t)).length, (pyStrip t).length,
          (req.content_type, req.summary_length, req.style, req.focus_points)⟩, true) := by
  unfold create_summary summarize
  rw [if_neg hc, hb]
  dsimp only
  rw [if_neg (by simp [he])]

/-- Witness for C4: the completion has surrounding whitespace and inner
runs of spaces; the normalized result has 4 words and 28 characters. -/
theorem normalization_pure_witness :
    create_summary ⟨String.mk (List.replicate 100 'A'), some "general", some 100,
        some "professional", some "main ideas"⟩
      (constBackend (Except.ok "  A normalized   summary text.  "))
      = (.ok ⟨"A normalized   summary text.", 4, 28,
          (some "general", some 100, some "professional", some "main ideas")⟩, true) := by
  have h := normalization_pure
    ⟨String.mk (List.replicate 100 'A'), some "general", some 100,
      some "professional", some "main ideas"⟩
    (constBackend (Except.ok "  A normalized   summary text.  "))
    "  A normalized   summary text.  " (by decide) rfl (by decide)
  exact h.trans (by decide)

/-- C5: a supplied `content_type` outside its enumerated set — including
an explicit `null` — puts a `content_type` error with the message listing
the allowed set in the validation errors, and likewise for `style`; both
messages contain their full enumerated list verbatim. -/
theorem enum_tag_validation (r : RawRequest) (v : Option String) :
    (r.content_type = some v → optAllowed allowedContentTypes v = false →
        ⟨"content_type", contentTypeErrMsg⟩ ∈ validationErrors r)
    ∧ (r.style = some v → optAllowed allowedStyles v = false →
        ⟨"style", styleErrMsg⟩ ∈ validationErrors r)
    ∧ strContainsSub contentTypeErrMsg
        (String.intercalate ", " allowedContentTypes) = true
    ∧ strContainsSub styleErrMsg (String.intercalate ", " allowedStyles) = true := by
  refine ⟨?_, ?_, by decide, by decide⟩
  · intro hct hv
    have hcterr : validateContentTypeField r.content_type
        = .error ⟨"content_type", contentTypeErrMsg⟩ := by
      rw [hct]
      cases v with
      | none => rfl
      | some s =>
          simp only [optAllowed] at hv
          simp [validateContentTypeField, hv]
          simpa using hv
    unfold validationErrors validateRequest
    rw [hcterr]
    cases validateContent r.content <;>
      cases validateSummaryLength r.summary_length <;>
      cases validateStyleField r.style <;>
      cases validateFocusPoints r.focus_points <;>
      simp [errsOf]
  · intro hst hv
    have hsterr : validateStyleField r.style = .error ⟨"style", styleErrMsg⟩ := by
      rw [hst]
      cases v with
      | none => rfl
      | some s =>
          simp only [optAllowed] at hv
          simp [validateStyleField, hv]
          simpa using hv
    unfold validationErrors validateRequest
    rw [hsterr]
    cases validateContent r.content <;>
      cases validateContentTypeField r.content_type <;>
      cases validateSummaryLength r.summary_length <;>
      cases validateFocusPoints r.focus_points <;>
      simp [errsOf]

/-- Witness for C5: `content_type: "poetry"` and `style: "shouty"` are
both reported, each with its full enumerated list. -/
theorem enum_tag_validation_witness :
    (⟨"content_type", contentTypeErrMsg⟩
        ∈ validationErrors ⟨String.mk (List.replicate 60 'B'),
            some (some "poetry"), none, some (some "shouty"), none⟩)
    ∧ (⟨"style", styleErrMsg⟩
        ∈ validationErrors ⟨String.mk (List.replicate 60 'B'),
            some (some "poetry"), none, some (some "shouty"), none⟩)
    ∧ strContainsSub contentTypeErrMsg
        (String.intercalate ", " allowedContentTypes) = true
    ∧ strContainsSub styleErrMsg (String.intercalate ", " allowedStyles) = true := by
  have h1 := enum_tag_validation
    ⟨String.mk (List.replicate 60 'B'), some (some "poetry"), none,
      some (some "shouty"), none⟩ (some "poetry")
  have h2 := enum_tag_validation
    ⟨String.mk (List.replicate 60 'B'), some (some "poetry"), none,
      some (some "shouty"), none⟩ (some "shouty")
  exact ⟨h1.1 rfl (by decide), h2.2.1 rfl (by decide), h1.2.2.1, h1.2.2.2⟩

/-- C7 counterexample: a successful backend completion whose text begins
with the word "Error" is misclassified: `create_summary` turns it into a
500 server error instead of a success-shaped result. -/
theorem error_prefixed_summary_counterexample :
    create_summary ⟨String.mk (List.replicate 100 'A'), some "general", some 100,
        some "professional", some "main ideas"⟩
      (constBackend (Except.ok "Error handling is a key topic."))
      = (.httpError 500 "Internal server error: 500: Error handling is a key topic.",
        true) := by
  decide

/-- C7 (amended): success versus failure *is* distinguished by whether the
summarizer's returned text begins with the literal word "Error": for a
successful backend completion, the handler raises a 500 exactly when the
trimmed completion starts with "Error". -/
theorem error_prefix_classifies_result (req : SummaryRequest) (b : BackendFn) (t : String)
    (hc : ¬(req.content = "" ∨ (pyStrip req.content).length < 50))
    (hb : b systemMessage
        (userMessage ⟨req.content, req.content_type, req.summary_length, req.style,
          req.focus_points⟩) = .ok t) :
    isErrorResult (create_summary req b).1 = pyStartsWith (pyStrip t) "Error" := by
  unfold create_summary summarize
  rw [if_neg hc, hb]
  dsimp only
  by_cases h : pyStartsWith (pyStrip t) "Error" = true
  · rw [if_pos h, h]
    rfl
  · rw [if_neg h]
    rw [Bool.not_eq_true] at h
    rw [h]
    rfl

/-- Witness for C7's amended theorem: an "Error"-prefixed completion is
classified as a failure. -/
theorem error_prefix_classifies_result_witness :
    isErrorResult (create_summary ⟨String.mk (List.replicate 100 'A'), some "general",
        some 100, some "professional", some "main ideas"⟩
      (constBackend (Except.ok "Error codes demystified, a primer."))).1 = true := by
  have h := error_prefix_classifies_result
    ⟨String.mk (List.replicate 100 'A'), some "general", some 100,
      some "professional", some "main ideas"⟩
    (constBackend (Except.ok "Error codes demystified, a primer."))
    "Error codes demystified, a primer." (by decide) rfl
  rw [h]
  decide

/-- A validated request whose content spans two lines; its raw length (87)
is within [50, 50000]. -/
def c6Params : ChainParams :=
  ⟨"First line of the failing content.\nSecond line that pads it well past fifty characters.",
    some "general", some 100, some "professional", some "main ideas"⟩

set_option maxRecDepth 100000 in
/-- C6: prompt construction as the code performs it.  The chain's
`RunnableParallel` of `RunnablePassthrough()`s binds every template
variable to the whole input mapping, so each placeholder is filled with
the Python `str()` of the entire dict: the full raw content is *not*
embedded verbatim in the submitted user instruction (here it appears only
with its newline escaped inside the dict repr), unlike the per-field
substitution the spec describes — while the model identifier and
decoding temperature are indeed the fixed `"gpt-3.5-turbo"` and 0.3. -/
theorem prompt_embeds_dict_repr :
    strContainsSub (userMessage c6Params) c6Params.content = false
    ∧ strContainsSub (specUserMessage c6Params) c6Params.content = true
    ∧ userMessage c6Params ≠ specUserMessage c6Params
    ∧ summarizerLLM.model = "gpt-3.5-turbo"
    ∧ summarizerLLM.temperature = 3 / 10 :=
  ⟨by decide, by decide, by decide, rfl, rfl⟩

/-- The request of concrete scenario A. -/
def rawScenarioA : RawRequest :=
  ⟨String.mk (List.replicate 100 'A'), some (some "general"), some (some 50),
    some (some "professional"), some (some "main ideas")⟩

/-- The backend stub of concrete scenario A. -/
def backendScenarioA : BackendFn :=
  constBackend (Except.ok "This is a short test summary.")

/-- C8 counterexample: scenario A does not produce `charCount == 30` —
the stub's text has 29 characters. -/
theorem scenario_a_charcount_counterexample :
    (summarizeEndpoint rawScenarioA backendScenarioA).1
      ≠ .success ⟨"This is a short test summary.", 6, 30,
          (some "general", some 50, some "professional", some "main ideas")⟩
    ∧ "This is a short test summary.".length = 29 := by
  decide

/-- C8 (amended): scenario A succeeds with the stub's text as summary,
`wordCount == 6` and `charCount == 29`. -/
theorem scenario_a_result :
    summarizeEndpoint rawScenarioA backendScenarioA
      = (.success ⟨"This is a short test summary.", 6, 29,
          (some "general", some 50, some "professional", some "main ideas")⟩, true) := by
  decide

/-- C9: at the public interface an explicit `null` differs from an absent
field: `null` for `content_type` or `style` is rejected (the validators
run on the supplied `None`), while `null` for `summary_length` or
`focus_points` is accepted and survives validation as `None` — not as the
documented default — and the documented defaults are used exactly when the
field is absent. -/
theorem null_vs_absent (c : String) (h1 : 50 ≤ c.length) (h2 : c.length ≤ 50000) :
    acceptsRequest ⟨c, some none, none, none, none⟩ = false
    ∧ acceptsRequest ⟨c, none, none, some none, none⟩ = false
    ∧ validateRequest ⟨c, none, some none, none, some none⟩
        = .ok ⟨c, some "general", none, some "professional", none⟩
    ∧ validateRequest (defaultRaw c)
        = .ok ⟨c, some "general", some 100, some "professional", some "main ideas"⟩ := by
  have hok := validateContent_ok c h1 h2
  refine ⟨?_, ?_, ?_, ?_⟩
  · unfold acceptsRequest validateRequest
    rw [hok]
    rfl
  · unfold acceptsRequest validateRequest
    rw [hok]
    rfl
  · unfold validateRequest
    rw [hok]
    rfl
  · rw [validateRequest_defaultRaw, hok]

/-- Witness for C9 at a 60-character content. -/
theorem null_vs_absent_witness :
    acceptsRequest ⟨String.mk (List.replicate 60 'B'), some none, none, none, none⟩
        = false
    ∧ acceptsRequest ⟨String.mk (List.replicate 60 'B'), none, none, some none, none⟩
        = false
    ∧ validateRequest ⟨String.mk (List.replicate 60 'B'), none, some none, none, some none⟩
        = .ok ⟨String.mk (List.replicate 60 'B'), some "general", none,
            some "professional", none⟩
    ∧ validateRequest (defaultRaw (String.mk (List.replicate 60 'B')))
        = .ok ⟨String.mk (List.replicate 60 'B'), some "general", some 100,
            some "professional", some "main ideas"⟩ :=
  null_vs_absent (String.mk (List.replicate 60 'B')) (by decide) (by decide)

/-- C10: every raised `HTTPException` of the handler — including the one
raised for an "Error"-prefixed summarizer result, which the blanket
`except Exception` catches and re-wraps — has status 500 and a detail
beginning with "Internal server error: ", so the summarizer's error string
is never the bare response detail; the endpoint forwards that detail in
its 500 response. -/
theorem server_error_detail_wrapped (req : SummaryRequest) (r : RawRequest)
    (b : BackendFn) (s : Nat) (d d2 : String) :
    ((create_summary req b).1 = .httpError s d →
        s = 500 ∧ pyStartsWith d "Internal server error: " = true)
    ∧ ((summarizeEndpoint r b).1 = .serverError d2 →
        pyStartsWith d2 "Internal server error: " = true) := by
  constructor
  · exact create_summary_server_error req b s d
  · intro h
    unfold summarizeEndpoint at h
    cases hv : validateRequest r with
    | error es =>
        rw [hv] at h
        simp at h
    | ok req2 =>
        rw [hv] at h
        dsimp only at h
        rcases hcs : create_summary req2 b with ⟨hr, called⟩
        rw [hcs] at h
        cases hr with
        | ok resp => simp at h
        | httpError st dd =>
            simp at h
            have hw := create_summary_server_error req2 b st dd (by rw [hcs])
            rw [← h]
            exact hw.2

/-- Witness for C10 on a backend failure. -/
theorem server_error_detail_wrapped_witness :
    (500 : Nat) = 500
    ∧ pyStartsWith "Internal server error: 500: Error generating summary: boom"
        "Internal server error: " = true :=
  (server_error_detail_wrapped
    ⟨String.mk (List.replicate 100 'A'), some "general", some 100,
      some "professional", some "main ideas"⟩
    (defaultRaw "x") (constBackend (Except.error "boom")) 500
    "Internal server error: 500: Error generating summary: boom" "y").1 (by decide)

end Summarizer
